import Mathlib

/-!
Shallow embedding of the terminal chat agent in `main.py`: the five tool
implementations (`FileReaderTool`, `ListFilesTool`, `EditFileTool`,
`ExecuteCommandTool`, `ConvertSmilesToCartesianTool`), the tool dispatcher
`TerminalChat._handle_tool_use`, and the per-session tool-activation state
(`_get_user_input`, `_select_tools_cli`, `_setup_tools`), together with
theorems settling the specification claims.

External facilities are modelled explicitly:
* the filesystem is an association list from absolute normalised paths to
  nodes; a file's raw bytes are recorded through the outcome of UTF-8
  decoding, the only property the program observes;
* `os.path.abspath` is modelled on already-normalised inputs (every theorem
  instantiates paths of that form);
* Python `str.replace` is re-implemented with Python's semantics, including
  the empty-pattern case where the replacement is inserted at every boundary;
* rdkit is abstracted by which SMILES strings `Chem.MolFromSmiles` parses and
  what XYZ block the pipeline emits for a parsed molecule (`RDKit`);
* `subprocess.run` and the interactive confirmation `input()` are abstracted
  by fields of `DispatchEnv`;
* raising a Python exception is modelled by an explicit `Option PyError`
  (or `Except PyError`) component of a function's result; code wrapped in a
  catch-all `try/except` that returns an error string is embedded as a total
  `String`-valued function, mirroring that its caller can never see a raise.
-/

/-- Python exceptions that the embedded code can raise to its caller. -/
inductive PyError where
  | keyError (key : String)
  | nameError (ident : String)
  | argumentError (callee : String)
  deriving DecidableEq

/-- Observable side effects of the tools: filesystem touches, the
confirmation prompt, subprocess execution, and console prints.  The safety
claims are stated as facts about which of these a call performs. -/
inductive Effect where
  | stat (path : String)
  | listdir (path : String)
  | readFile (path : String)
  | writeFile (path : String)
  | prompt
  | subprocessRun (command : String)
  | consolePrint (text : String)
  deriving DecidableEq

/-- Contents of a regular file, recorded through the outcome of UTF-8
decoding: either text that decodes, or undecodable bytes of which only the
byte count is observable (that is all `main.py` ever reports of them). -/
inductive FileData where
  | text (s : String)
  | binary (size : Nat)
  deriving DecidableEq

/-- A filesystem entry: a regular file or a directory. -/
inductive Node where
  | file (data : FileData)
  | dir
  deriving DecidableEq

/-- The filesystem: an association list from absolute normalised paths to
nodes.  The first binding for a path is the visible one. -/
abbrev FS : Type := List (String × Node)

def fsLookup (fs : FS) (p : String) : Option Node :=
  List.lookup p fs

/-- Model of `os.path.exists`. -/
def pathExists (fs : FS) (p : String) : Bool :=
  (fsLookup fs p).isSome

/-- Model of `os.path.isfile`. -/
def isFile (fs : FS) (p : String) : Bool :=
  match fsLookup fs p with
  | some (Node.file _) => true
  | _ => false

/-- Model of `os.path.isdir`. -/
def isDir (fs : FS) (p : String) : Bool :=
  match fsLookup fs p with
  | some Node.dir => true
  | _ => false

def readData (fs : FS) (p : String) : Option FileData :=
  match fsLookup fs p with
  | some (Node.file d) => some d
  | _ => none

/-- Byte size of a file's contents (`os.path.getsize`): the UTF-8 size of
decodable text, or the recorded byte count. -/
def FileData.size : FileData → Nat
  | FileData.text s => s.utf8ByteSize
  | FileData.binary n => n

def fileSize (fs : FS) (p : String) : Nat :=
  match fsLookup fs p with
  | some (Node.file d) => d.size
  | _ => 0

/-- Overwrite the binding of path `p` (used to model rewriting a file in
place with `open(p, "w")` when `p` already exists in the filesystem). -/
def fsInsert (fs : FS) (p : String) (node : Node) : FS :=
  fs.map (fun e => if e.1 = p then (p, node) else e)

/-- Python `s.startswith(pre)`: `pre` is a prefix of `s`'s character
sequence. -/
def pyStartswith (s pre : String) : Bool :=
  List.isPrefixOf pre.data s.data

/-- Python `s.lower()` on the ASCII inputs used here. -/
def pyLower (s : String) : String :=
  String.mk (s.data.map Char.toLower)

/-- Python `s.strip()`: remove leading and trailing whitespace. -/
def pyStrip (s : String) : String :=
  String.mk (((s.data.dropWhile Char.isWhitespace).reverse.dropWhile
    Char.isWhitespace).reverse)

/-- Python `s[n:]` on character counts. -/
def pyDrop (s : String) (n : Nat) : String :=
  String.mk (s.data.drop n)

/-- Helper for `pySplitComma`: split a character list at every comma. -/
def splitCommaList : List Char → List (List Char)
  | [] => [[]]
  | c :: rest =>
    let r := splitCommaList rest
    if c = ',' then [] :: r
    else
      match r with
      | [] => [[c]]
      | h :: t => (c :: h) :: t

/-- Python `s.split(",")` (the empty string yields `[""]`, as in Python). -/
def pySplitComma (s : String) : List String :=
  (splitCommaList s.data).map String.mk

/-- Python `int(t)` for a non-empty all-ASCII-digit string `t`. -/
def digitsToNat (l : List Char) : Nat :=
  l.foldl (fun n c => n * 10 + (c.toNat - 48)) 0

/-- Model of `os.path.abspath`, restricted to the inputs the theorems use:
an absolute already-normalised path is returned unchanged, "." names the
working directory, and any other (normalised) relative path is joined below
it.  The working directory `cwd` is what `os.getcwd()` returns: absolute,
with no trailing slash. -/
def abspath (cwd p : String) : String :=
  if pyStartswith p "/" then p
  else if p = "." then cwd
  else cwd ++ "/" ++ p

/-- Python `str(list_of_strings)` for lists whose members need no escaping:
each element in single quotes, comma-separated, in square brackets. -/
def pyStrList (xs : List String) : String :=
  "[" ++ String.intercalate ", " (xs.map (fun s => "'" ++ s ++ "'")) ++ "]"

/-- Model of `os.listdir d`: the names bound directly below directory `d`
(one path component, in the association-list order). -/
def listdirNames (fs : FS) (d : String) : List String :=
  fs.filterMap (fun e =>
    if pyStartswith e.1 (d ++ "/") then
      let rest := pyDrop e.1 (d.length + 1)
      if rest ≠ "" ∧ rest.data.contains '/' = false then some rest else none
    else none)

/-- Helper for `pyReplace`: left-to-right non-overlapping replacement of the
non-empty pattern `o :: os` by `new`.  The `fuel` argument (instantiated
with the input length) only makes the recursion structural; every call site
consumes at least one list element per unit of fuel, so the fuel-exhaustion
branch is unreachable. -/
def replaceAux (o : Char) (os new : List Char) : Nat → List Char → List Char
  | _, [] => []
  | 0, l => l
  | fuel + 1, c :: rest =>
    if List.isPrefixOf (o :: os) (c :: rest) then
      new ++ replaceAux o os new fuel (List.drop os.length rest)
    else
      c :: replaceAux o os new fuel rest

/-- Python `s.replace(old, new)`: literal (non-regex) replacement of every
occurrence, left to right, non-overlapping.  For the empty pattern Python
inserts `new` at every boundary, including both ends ("ab".replace("", "-")
is "-a-b-"). -/
def pyReplace (s old new : String) : String :=
  match old.data with
  | [] => String.mk (s.data.foldr (fun c acc => new.data ++ c :: acc) new.data)
  | o :: os => String.mk (replaceAux o os new.data s.data.length s.data)

/-- Embedding of `FileReaderTool.read_file`.  The `none` fallback of the
final match corresponds to the catch-all `except` branch (unreachable here:
the filesystem cannot change between the `isfile` check and the read). -/
def FileReaderTool.read_file (fs : FS) (file_path : String) : String :=
  if pathExists fs file_path then
    if isFile fs file_path then
      match readData fs file_path with
      | some (FileData.text content) => content
      | some (FileData.binary n) =>
          "Binary file detected. File size: " ++ toString n ++
            " bytes. Cannot display content as text."
      | none => "Error reading file: unreadable"
    else
      "Error: '" ++ file_path ++ "' is not a file."
  else
    "Error: File '" ++ file_path ++ "' not found."

/-- Embedding of `ListFilesTool.list_files`.  The effect list records the
filesystem touches (the `isdir` check and the directory read); the per-entry
`isfile`/`getsize` calls of the annotation loop are subsumed by
`Effect.listdir`.  The source's in-place annotation loop (which rewrites
`files[files.index(f)]`) is embedded as a map, to which it is equal whenever
the raw entry names are pairwise distinct and distinct from every annotated
name, as in every instance used below. -/
def ListFilesTool.list_files (cwd : String) (fs : FS) (directory_path : String) :
    String × List Effect :=
  let p := abspath cwd directory_path
  if pyStartswith p cwd then
    if isDir fs p then
      let files := (listdirNames fs p).map (fun f =>
        if isFile fs (p ++ "/" ++ f) then
          f ++ " (Size: " ++ toString (fileSize fs (p ++ "/" ++ f)) ++ " bytes)"
        else
          f ++ " (Directory)")
      (pyStrList files, [Effect.stat p, Effect.listdir p])
    else
      ("Error: '" ++ p ++ "' is not a valid directory.", [Effect.stat p])
  else
    ("Error: Access to '" ++ p ++
       "' is not allowed. Only current directory and subdirectories are accessible.", [])

/-- Embedding of `EditFileTool.edit_file`.  Creating a missing file with
`open(p, "w")` is modelled as always succeeding (the instances used have an
existing parent directory); reading a file that does not decode as UTF-8
raises `UnicodeDecodeError`, caught by the catch-all handler, whose
interpreter-formatted `str(e)` text is abbreviated here. -/
def EditFileTool.edit_file (cwd : String) (fs : FS)
    (file_path old_str new_str : String) : FS × String × List Effect :=
  let p := abspath cwd file_path
  if pyStartswith p cwd then
    let createNew := !(pathExists fs p)
    let fs1 := if createNew then (p, Node.file (FileData.text "")) :: fs else fs
    let eff1 := if createNew then [Effect.stat p, Effect.writeFile p] else [Effect.stat p]
    match fsLookup fs1 p with
    | some (Node.file (FileData.text content)) =>
        let new_content := pyReplace content old_str new_str
        (fsInsert fs1 p (Node.file (FileData.text new_content)),
         "File '" ++ p ++ "' edited successfully.",
         eff1 ++ [Effect.readFile p, Effect.writeFile p])
    | some (Node.file (FileData.binary _)) =>
        (fs1, "Error editing file: UnicodeDecodeError", eff1 ++ [Effect.readFile p])
    | _ =>
        (fs1, "Error: '" ++ p ++ "' is not a file.", eff1)
  else
    (fs, "Error: Access to '" ++ p ++
       "' is not allowed. Only files in the current directory are editable.", [])

/-- Helper for `pyIn`: whether `needle` occurs as a contiguous run of
`hay`. -/
def substrAt (needle : List Char) : List Char → Bool
  | [] => needle.isEmpty
  | c :: rest => List.isPrefixOf needle (c :: rest) || substrAt needle rest

/-- Python's substring containment test `needle in hay`. -/
def pyIn (needle hay : String) : Bool :=
  substrAt needle.data hay.data

/-- The source's `unsafe_commands` denylist. -/
def unsafe_commands : List String :=
  ["rm", "chmod", "chown", "sudo", "kill", "reboot", "shutdown"]

/-- Outcome of `subprocess.run(command, shell=True, capture_output=True,
text=True)`. -/
structure CmdOutcome where
  stdout : String
  stderr : String
  returncode : Int
  deriving DecidableEq

/-- Embedding of `ExecuteCommandTool.execute_command`.  `confirmReply` is
what `input()` would return at the confirmation prompt and `runCmd` is the
subprocess's outcome for each command; the effect list records whether the
prompt was shown and whether a subprocess ran. -/
def ExecuteCommandTool.execute_command (confirmReply : String)
    (runCmd : String → CmdOutcome) (command : String) : String × List Effect :=
  if unsafe_commands.any (fun cmd => pyIn cmd command) then
    ("Error: Unsafe command detected. Command execution is restricted.", [])
  else if pyLower confirmReply ≠ "yes" then
    ("Command execution cancelled by user.", [Effect.prompt])
  else
    let result := runCmd command
    let outEff :=
      if result.stdout ≠ "" then
        [Effect.consolePrint ("Command output: " ++ pyStrip result.stdout)]
      else []
    if result.returncode ≠ 0 then
      ("Error executing command: " ++ pyStrip result.stderr,
       [Effect.prompt, Effect.subprocessRun command] ++ outEff)
    else
      (pyStrip result.stdout, [Effect.prompt, Effect.subprocessRun command] ++ outEff)

/-- Abstraction of the rdkit library: which SMILES strings
`Chem.MolFromSmiles` parses into a molecule (it returns Python `None` for
the rest), and the XYZ coordinate block the `AddHs`/`EmbedMolecule`/
`MolToXYZBlock` pipeline emits for a parsed molecule. -/
structure RDKit where
  parses : String → Bool
  xyzBlock : String → String

/-- Model of `Chem.MolFromSmiles`: `none` is rdkit returning `None` for a
SMILES string it cannot parse.  A parsed molecule is represented by the
string that produced it. -/
def Chem.MolFromSmiles (rd : RDKit) (smiles : String) : Option String :=
  if rd.parses smiles then some smiles else none

/-- Embedding of `ConvertSmilesToCartesianTool.convert`.  The function has
no `try/except`: when `MolFromSmiles` returns `None`, the call
`Chem.AddHs(None)` raises, and the exception propagates to the caller. -/
def ConvertSmilesToCartesianTool.convert (rd : RDKit) (smiles : String) :
    Except PyError String :=
  match Chem.MolFromSmiles rd smiles with
  | none => Except.error (PyError.argumentError "Chem.AddHs")
  | some mol => Except.ok (rd.xyzBlock mol)

/-- A tool schema as advertised to the model: the fields of the source's
`SCHEMA` dictionaries that the dispatch logic depends on. -/
structure ToolSchema where
  name : String
  description : String
  deriving DecidableEq

def FileReaderTool.SCHEMA : ToolSchema :=
  { name := "read_file_tool",
    description := "Read the contents of a file from the filesystem" }

def ListFilesTool.SCHEMA : ToolSchema :=
  { name := "list_files_tool", description := "List files in a directory" }

def EditFileTool.SCHEMA : ToolSchema :=
  { name := "edit_file_tool", description := "Edit a file in the current directory" }

def ExecuteCommandTool.SCHEMA : ToolSchema :=
  { name := "execute_command_tool", description := "Execute a shell command" }

def ConvertSmilesToCartesianTool.SCHEMA : ToolSchema :=
  { name := "convert_smiles_to_cartesian_tool",
    description := "Convert a SMILES string to Cartesian coordinates" }

/-- The dispatcher's `tool_map`, in the source's insertion order.  The
Python value pairs each schema with a stateless tool instance; only the
schema component is ever read through the map (`tool_map[name][1]`), and
the instance component merely selects the executable embedded above. -/
def toolMap : List (String × ToolSchema) :=
  [("read_file_tool", FileReaderTool.SCHEMA),
   ("list_files_tool", ListFilesTool.SCHEMA),
   ("edit_file_tool", EditFileTool.SCHEMA),
   ("execute_command_tool", ExecuteCommandTool.SCHEMA),
   ("convert_smiles_to_cartesian_tool", ConvertSmilesToCartesianTool.SCHEMA)]

/-- The registered tool names: `list(tool_map.keys())` in insertion order. -/
def toolNames : List String :=
  ["read_file_tool", "list_files_tool", "edit_file_tool",
   "execute_command_tool", "convert_smiles_to_cartesian_tool"]

def toolNamesFinset : Finset String := toolNames.toFinset

/-- A tool invocation issued by the model: a tool name, a unique id, and a
mapping from argument name to (string) value — every registered schema's
arguments are strings. -/
structure ToolCall where
  name : String
  id : String
  input : List (String × String)
  deriving DecidableEq

/-- A turn of the transcript (`self.messages`). -/
inductive Entry where
  | userText (s : String)
  | assistantText (s : String)
  | assistantToolUse (tc : ToolCall)
  | userToolResult (tool_use_id : String) (content : String)
  deriving DecidableEq

/-- The two appends at the end of `_handle_tool_use`: the assistant turn
holding the invocation, then the user turn holding its tool result. -/
def appendPair (messages : List Entry) (tc : ToolCall) (result : String) :
    List Entry :=
  messages ++ [Entry.assistantToolUse tc, Entry.userToolResult tc.id result]

/-- The dispatcher's environment: working directory, filesystem, and the
abstracted interactive/external facilities. -/
structure DispatchEnv where
  cwd : String
  fs : FS
  confirmReply : String
  cmdResult : String → CmdOutcome
  rdkit : RDKit

/-- Result of one dispatcher call: the transcript and filesystem after it,
the effects it performed, and the uncaught exception if it raised (mutations
made before the raise persist, as they do across a Python `raise`). -/
structure HandleResult where
  messages : List Entry
  fs : FS
  effects : List Effect
  raised : Option PyError
  deriving DecidableEq

/-- Embedding of `TerminalChat._handle_tool_use`.  The first statement of
the source, `tool_instance = self.tool_map[tool_call.name][0]`, raises
`KeyError` for an unregistered name before anything is printed or appended;
the source's `case _` branch (print the unknown-tool error, then fall into
the appends, where the first append runs and the second raises `NameError`
on the never-assigned `result`) is consequently unreachable, but is embedded
faithfully in the final arm.  A missing required argument raises `KeyError`
before the branch's announcement print. -/
def handle_tool_use (env : DispatchEnv) (messages : List Entry) (tc : ToolCall) :
    HandleResult :=
  match List.lookup tc.name toolMap with
  | none => ⟨messages, env.fs, [], some (PyError.keyError tc.name)⟩
  | some _ =>
    if tc.name = "read_file_tool" then
      match List.lookup "file_path" tc.input with
      | none => ⟨messages, env.fs, [], some (PyError.keyError "file_path")⟩
      | some file_path =>
        let result := FileReaderTool.read_file env.fs file_path
        ⟨appendPair messages tc result, env.fs,
         [Effect.consolePrint ("Reading file: " ++ file_path)], none⟩
    else if tc.name = "list_files_tool" then
      let directory_path := (List.lookup "directory_path" tc.input).getD "."
      let r := ListFilesTool.list_files env.cwd env.fs directory_path
      ⟨appendPair messages tc r.1, env.fs,
       Effect.consolePrint ("Listing files in: " ++ directory_path) :: r.2, none⟩
    else if tc.name = "edit_file_tool" then
      match List.lookup "file_path" tc.input with
      | none => ⟨messages, env.fs, [], some (PyError.keyError "file_path")⟩
      | some file_path =>
        match List.lookup "old_str" tc.input with
        | none => ⟨messages, env.fs, [], some (PyError.keyError "old_str")⟩
        | some old_str =>
          match List.lookup "new_str" tc.input with
          | none => ⟨messages, env.fs, [], some (PyError.keyError "new_str")⟩
          | some new_str =>
            let r := EditFileTool.edit_file env.cwd env.fs file_path old_str new_str
            ⟨appendPair messages tc r.2.1, r.1,
             Effect.consolePrint ("Editing file: " ++ file_path) :: r.2.2, none⟩
    else if tc.name = "execute_command_tool" then
      match List.lookup "command" tc.input with
      | none => ⟨messages, env.fs, [], some (PyError.keyError "command")⟩
      | some command =>
        let r := ExecuteCommandTool.execute_command env.confirmReply env.cmdResult command
        ⟨appendPair messages tc r.1, env.fs,
         Effect.consolePrint ("Executing command: " ++ command) :: r.2, none⟩
    else if tc.name = "convert_smiles_to_cartesian_tool" then
      match List.lookup "smiles" tc.input with
      | none => ⟨messages, env.fs, [], some (PyError.keyError "smiles")⟩
      | some smiles =>
        match ConvertSmilesToCartesianTool.convert env.rdkit smiles with
        | Except.error e =>
          ⟨messages, env.fs,
           [Effect.consolePrint ("Converting SMILES to Cartesian coordinates: " ++ smiles)],
           some e⟩
        | Except.ok result =>
          ⟨appendPair messages tc result, env.fs,
           [Effect.consolePrint ("Converting SMILES to Cartesian coordinates: " ++ smiles)],
           none⟩
    else
      ⟨messages ++ [Entry.assistantToolUse tc], env.fs,
       [Effect.consolePrint ("Unknown tool: " ++ tc.name)],
       some (PyError.nameError "result")⟩

/-- The session state the input-handling and activation code touches. -/
structure ChatState where
  messages : List Entry
  active_tools : Finset String
  tools : List ToolSchema
  deriving DecidableEq

/-- The list comprehension of `_setup_tools`, over an explicit name list:
`tool_map[name][1]` raises `KeyError` at the first name not in the map. -/
def setupToolsList : List String → Except PyError (List ToolSchema)
  | [] => Except.ok []
  | n :: rest =>
    match List.lookup n toolMap with
    | none => Except.error (PyError.keyError n)
    | some s =>
      match setupToolsList rest with
      | Except.ok ts => Except.ok (s :: ts)
      | Except.error e => Except.error e

/-- Embedding of `TerminalChat._setup_tools`: the schema list derived from
the active tool set.  Python enumerates a set in an arbitrary order; the
embedding fixes the sorted order, an instance of it. -/
def setup_tools (active : Finset String) : Except PyError (List ToolSchema) :=
  setupToolsList (active.sort (fun a b => a ≤ b))

/-- Embedding of the `/activate` branch of `_get_user_input`: result state,
console lines printed, and the exception if `_setup_tools` raised (the set
mutation precedes the schema derivation, so it persists on a raise). -/
def stepActivate (st : ChatState) (tool_name : String) :
    ChatState × List String × Option PyError :=
  if tool_name ∈ toolNames then
    match setup_tools (insert tool_name st.active_tools) with
    | Except.ok ts =>
      ({ st with active_tools := insert tool_name st.active_tools, tools := ts },
       ["Activated " ++ tool_name ++ "."], none)
    | Except.error e =>
      ({ st with active_tools := insert tool_name st.active_tools }, [], some e)
  else
    (st, ["Unknown tool: " ++ tool_name], none)

/-- Embedding of the `/deactivate` branch of `_get_user_input`. -/
def stepDeactivate (st : ChatState) (tool_name : String) :
    ChatState × List String × Option PyError :=
  if tool_name ∈ st.active_tools then
    match setup_tools (st.active_tools.erase tool_name) with
    | Except.ok ts =>
      ({ st with active_tools := st.active_tools.erase tool_name, tools := ts },
       ["Deactivated " ++ tool_name ++ "."], none)
    | Except.error e =>
      ({ st with active_tools := st.active_tools.erase tool_name }, [], some e)
  else
    (st, ["Tool not active: " ++ tool_name], none)

/-- How `_get_user_input` classifies one input line, in the source's test
order: exit keywords first (case-insensitively), then the two command
prefixes, whose argument is the rest of the line after the first space,
stripped; anything else is a chat message. -/
inductive UserCmd where
  | exitCmd
  | activate (tool_name : String)
  | deactivate (tool_name : String)
  | plain (s : String)
  deriving DecidableEq

def parseUserLine (line : String) : UserCmd :=
  if pyLower line = "exit" ∨ pyLower line = "quit" then UserCmd.exitCmd
  else if pyStartswith line "/activate " then
    UserCmd.activate (pyStrip (pyDrop line "/activate ".length))
  else if pyStartswith line "/deactivate " then
    UserCmd.deactivate (pyStrip (pyDrop line "/deactivate ".length))
  else UserCmd.plain line

/-- What a call of `_get_user_input` produces: `ended` models the scripted
input lines running out (the real `input()` would block), `exitChat` is the
source's `None` return, `message` is a line returned to the chat loop, and
`raised` an exception escaping the call. -/
inductive GotInput where
  | ended
  | exitChat
  | message (s : String)
  | raised (e : PyError)
  deriving DecidableEq

/-- Embedding of `TerminalChat._get_user_input` over a list of pending input
lines: activation and deactivation commands mutate the state and recurse for
the next line; only exit or a plain chat line returns to the caller. -/
def getUserInput : ChatState → List String → ChatState × GotInput
  | st, [] => (st, GotInput.ended)
  | st, line :: rest =>
    match parseUserLine line with
    | UserCmd.exitCmd => (st, GotInput.exitChat)
    | UserCmd.activate n =>
      let r := stepActivate st n
      match r.2.2 with
      | some e => (r.1, GotInput.raised e)
      | none => getUserInput r.1 rest
    | UserCmd.deactivate n =>
      let r := stepDeactivate st n
      match r.2.2 with
      | some e => (r.1, GotInput.raised e)
      | none => getUserInput r.1 rest
    | UserCmd.plain s => (st, GotInput.message s)

/-- The index list of `_select_tools_cli`: split the selection on commas,
keep the stripped parts made of digits only, and read them as numbers
(Python's `int` cannot fail on an all-ASCII-digit string). -/
def parseSelection (selection : String) : List Nat :=
  (pySplitComma selection).filterMap (fun part =>
    let t := pyStrip part
    if t ≠ "" ∧ t.data.all Char.isDigit then some (digitsToNat t.data) else none)

/-- The activation loop of `_select_tools_cli` with Python list-indexing
semantics for `list(tool_map.keys())[idx - 1]`: index 0 becomes -1 and
selects the last name; an index past the end raises `IndexError`, caught by
the `except` branch, which replaces the active set with all tool names. -/
def selectToolsGo (active : Finset String) : List Nat → Finset String
  | [] => active
  | idx :: rest =>
    if idx = 0 then
      selectToolsGo (insert (toolNames.getLastD "") active) rest
    else if idx - 1 < toolNames.length then
      selectToolsGo (insert ((toolNames[idx - 1]?).getD "") active) rest
    else
      toolNames.toFinset

/-- Embedding of `TerminalChat._select_tools_cli`. -/
def TerminalChat.select_tools_cli (selection : String) (active : Finset String) :
    Finset String :=
  selectToolsGo active (parseSelection selection)

/-- Claim-side definition, following the specification's words: an absolute
normalised path lies outside the working-directory tree when it is neither
the working directory itself nor below it. -/
def outsideCwdTree (cwd p : String) : Bool :=
  !(p == cwd || pyStartswith p (cwd ++ "/"))

/-- Claim-side restatement of the read-file contract, written from the
claim's words: a not-found error for a path at which nothing exists, a
not-a-file error for a directory, the decoded text of a UTF-8 file, and a
binary-file notice carrying the byte size otherwise. -/
def readFileSpec (fs : FS) (p : String) : String :=
  match fsLookup fs p with
  | none => "Error: File '" ++ p ++ "' not found."
  | some Node.dir => "Error: '" ++ p ++ "' is not a file."
  | some (Node.file (FileData.text s)) => s
  | some (Node.file (FileData.binary n)) =>
      "Binary file detected. File size: " ++ toString n ++
        " bytes. Cannot display content as text."

/-- A concrete rdkit instance for closed theorems, a fragment of the real
parser's behaviour on the inputs used below: methane ("C") parses, the
non-SMILES strings used do not. -/
def rdkitDemo : RDKit :=
  { parses := fun s => s == "C", xyzBlock := fun s => "xyz:" ++ s }

/-- A concrete subprocess behaviour for closed theorems. -/
def cmdRunDemo : String → CmdOutcome := fun _ => ⟨"", "", 0⟩

/-- A filesystem holding a sibling of the working directory "/home/user"
whose name extends the working directory's name as a string. -/
def fsSibling : FS :=
  [("/home/userX", Node.dir), ("/home/userX/a.txt", Node.file (FileData.text "hi"))]

def envDemo : DispatchEnv :=
  { cwd := "/home/user", fs := fsSibling, confirmReply := "yes",
    cmdResult := cmdRunDemo, rdkit := rdkitDemo }

def tcUnknown : ToolCall :=
  { name := "web_search_tool", id := "toolu_01", input := [] }

lemma lookup_toolMap_eq_none {n : String} (h : n ∉ toolNames) :
    List.lookup n toolMap = none := by
  simp only [toolNames, List.mem_cons, List.not_mem_nil, or_false, not_or] at h
  obtain ⟨h1, h2, h3, h4, h5⟩ := h
  simp [toolMap, List.lookup, beq_eq_false_iff_ne.mpr h1, beq_eq_false_iff_ne.mpr h2,
    beq_eq_false_iff_ne.mpr h3, beq_eq_false_iff_ne.mpr h4, beq_eq_false_iff_ne.mpr h5]

lemma substrAt_iff (needle hay : List Char) :
    substrAt needle hay = true ↔ needle <:+: hay := by
  induction hay with
  | nil => simp [substrAt, List.isEmpty_iff, List.infix_nil]
  | cons c rest ih =>
    simp [substrAt, List.infix_cons_iff, List.isPrefixOf_iff_prefix, ih]

/-- C1: refuted by the code (code bug).  The absolute path "/home/userX"
lies outside the working-directory tree of "/home/user", yet the guard —
which only tests `startswith(os.getcwd())` — accepts it: `list_files` reads
the filesystem and returns the sibling directory's listing instead of the
access-denied error, and `edit_file` (same guard) rewrites a file there.
The code's own error message promises that only the current directory and
subdirectories are accessible. -/
theorem c1_list_files_prefix_guard_escape :
    outsideCwdTree "/home/user" "/home/userX" = true ∧
    ListFilesTool.list_files "/home/user" fsSibling "/home/userX" =
      ("['a.txt (Size: 2 bytes)']",
       [Effect.stat "/home/userX", Effect.listdir "/home/userX"]) ∧
    outsideCwdTree "/home/user" "/home/userX/a.txt" = true ∧
    EditFileTool.edit_file "/home/user" fsSibling "/home/userX/a.txt" "hi" "HI" =
      ([("/home/userX", Node.dir), ("/home/userX/a.txt", Node.file (FileData.text "HI"))],
       "File '/home/userX/a.txt' edited successfully.",
       [Effect.stat "/home/userX/a.txt", Effect.readFile "/home/userX/a.txt",
        Effect.writeFile "/home/userX/a.txt"]) := by
  decide

/-- C2: counterexample.  On an invocation with an unregistered tool name
the dispatcher neither prints an error nor drops the turn cleanly: the
`tool_map` lookup raises `KeyError` before the unknown-tool branch (dead
code) could print, the turn ends in an uncaught exception, and no effect is
performed; the transcript is left as it was. -/
theorem c2_unknown_tool_counterexample :
    (handle_tool_use envDemo [] tcUnknown).raised =
      some (PyError.keyError "web_search_tool") ∧
    (handle_tool_use envDemo [] tcUnknown).effects = [] ∧
    (handle_tool_use envDemo [] tcUnknown).messages = [] := by
  decide

/-- C2 (amended): for every tool invocation whose name is not one of the
five registered names, the dispatcher raises `KeyError` at the `tool_map`
lookup before printing or appending anything: the transcript and the
filesystem are exactly as before and no effect is performed, but the turn
aborts in an uncaught exception instead of a printed error. -/
theorem c2_unknown_tool_keyerror :
    ∀ (env : DispatchEnv) (messages : List Entry) (tc : ToolCall),
    tc.name ∉ toolNames →
    handle_tool_use env messages tc =
      ⟨messages, env.fs, [], some (PyError.keyError tc.name)⟩ := by
  intro env messages tc h
  unfold handle_tool_use
  rw [lookup_toolMap_eq_none h]

/-- C2 witness: the amended theorem applied at a concrete unregistered
invocation. -/
theorem c2_unknown_tool_keyerror_witness :
    tcUnknown.name ∉ toolNames ∧
    handle_tool_use envDemo [] tcUnknown =
      ⟨[], envDemo.fs, [], some (PyError.keyError tcUnknown.name)⟩ :=
  ⟨by decide, c2_unknown_tool_keyerror envDemo [] tcUnknown (by decide)⟩

/-- C3: counterexample.  A registered tool's execution function can raise:
`convert` has no error handling, and on a SMILES string rdkit cannot parse,
`MolFromSmiles` returns `None` and `Chem.AddHs(None)` raises, so no string
is returned to the caller. -/
theorem c3_convert_raises_counterexample :
    ConvertSmilesToCartesianTool.convert rdkitDemo "this is not a SMILES string" =
      Except.error (PyError.argumentError "Chem.AddHs") := rfl

/-- C3 (amended): the four file/command tools return a string on every
input — their catch-all handlers make them total, which their embedded
types state — while `convert` returns the XYZ block exactly when the SMILES
string parses and raises when `MolFromSmiles` returns `None`. -/
theorem c3_convert_raises_iff :
    ∀ (rd : RDKit) (smiles : String),
    (rd.parses smiles = false →
      ConvertSmilesToCartesianTool.convert rd smiles =
        Except.error (PyError.argumentError "Chem.AddHs")) ∧
    (rd.parses smiles = true →
      ConvertSmilesToCartesianTool.convert rd smiles =
        Except.ok (rd.xyzBlock smiles)) := by
  intro rd smiles
  constructor <;> intro h <;>
    simp [ConvertSmilesToCartesianTool.convert, Chem.MolFromSmiles, h]

/-- C3 witness: both branches of the amended theorem at concrete inputs. -/
theorem c3_convert_raises_iff_witness :
    rdkitDemo.parses "bogus" = false ∧
    ConvertSmilesToCartesianTool.convert rdkitDemo "bogus" =
      Except.error (PyError.argumentError "Chem.AddHs") ∧
    rdkitDemo.parses "C" = true ∧
    ConvertSmilesToCartesianTool.convert rdkitDemo "C" =
      Except.ok (rdkitDemo.xyzBlock "C") :=
  ⟨by decide, (c3_convert_raises_iff rdkitDemo "bogus").1 (by decide),
   by decide, (c3_convert_raises_iff rdkitDemo "C").2 (by decide)⟩

/-- C4: confirmed.  For every command string containing a denylisted token
as a substring, `execute_command` returns the unsafe-command error string
without prompting for confirmation and without running a subprocess,
whatever the confirmation reply and the subprocess behaviour would have
been. -/
theorem c4_denylist_rejects_without_prompt :
    ∀ (confirmReply : String) (runCmd : String → CmdOutcome) (command : String),
    (∃ t ∈ unsafe_commands, t.data <:+: command.data) →
    ExecuteCommandTool.execute_command confirmReply runCmd command =
      ("Error: Unsafe command detected. Command execution is restricted.", []) := by
  intro confirmReply runCmd command h
  obtain ⟨t, ht, hinf⟩ := h
  have hc : unsafe_commands.any (fun cmd => pyIn cmd command) = true :=
    List.any_eq_true.mpr ⟨t, ht, (substrAt_iff t.data command.data).mpr hinf⟩
  simp [ExecuteCommandTool.execute_command, hc]

/-- C4 witness: the theorem applied to the command "sudo ls". -/
theorem c4_denylist_rejects_without_prompt_witness :
    (∃ t ∈ unsafe_commands, t.data <:+: ("sudo ls").data) ∧
    ExecuteCommandTool.execute_command "yes" cmdRunDemo "sudo ls" =
      ("Error: Unsafe command detected. Command execution is restricted.", []) :=
  ⟨by decide, c4_denylist_rejects_without_prompt "yes" cmdRunDemo "sudo ls" (by decide)⟩

/-- C5: confirmed.  Whenever `_handle_tool_use` completes without raising —
the only case in which control returns to the chat loop and a next model
call is issued — the transcript has been extended by exactly the invocation
entry and one tool-result entry paired to it through the invocation id, and
by nothing else. -/
theorem c5_dispatch_appends_exactly_one_pair :
    ∀ (env : DispatchEnv) (messages : List Entry) (tc : ToolCall),
    (handle_tool_use env messages tc).raised = none →
    ∃ r, (handle_tool_use env messages tc).messages =
      messages ++ [Entry.assistantToolUse tc, Entry.userToolResult tc.id r] := by
  intro env messages tc
  unfold handle_tool_use
  repeat' split
  all_goals intro h
  all_goals first
    | exact ⟨_, rfl⟩
    | simp at h

/-- A registered, well-formed invocation used by closed theorems. -/
def tcRead : ToolCall :=
  { name := "read_file_tool", id := "toolu_02",
    input := [("file_path", "/home/userX/a.txt")] }

/-- C5 witness: the theorem applied to a concrete successful invocation. -/
theorem c5_dispatch_appends_exactly_one_pair_witness :
    (handle_tool_use envDemo [] tcRead).raised = none ∧
    ∃ r, (handle_tool_use envDemo [] tcRead).messages =
      [] ++ [Entry.assistantToolUse tcRead, Entry.userToolResult tcRead.id r] :=
  ⟨by decide, c5_dispatch_appends_exactly_one_pair envDemo [] tcRead (by decide)⟩

/-- A filesystem holding a directory inside the working-directory tree. -/
def fsInnerDir : FS := [("/home/user/sub", Node.dir)]

/-- C6: counterexample.  "/home/user/sub" is inside the working-directory
tree of "/home/user" and does not name an existing file — it names an
existing directory — yet `edit_file` neither creates a file nor performs a
replacement: `os.path.exists` is true, so the creation branch is skipped,
the `isfile` check fails, and a not-a-file error is returned with the
filesystem unchanged. -/
theorem c6_edit_existing_dir_counterexample :
    fsLookup fsInnerDir "/home/user/sub" = some Node.dir ∧
    pyStartswith (abspath "/home/user" "/home/user/sub") "/home/user" = true ∧
    EditFileTool.edit_file "/home/user" fsInnerDir "/home/user/sub" "a" "b" =
      (fsInnerDir, "Error: '/home/user/sub' is not a file.",
       [Effect.stat "/home/user/sub"]) := by
  decide

lemma fsInsert_lookup_none (p : String) (node : Node) :
    ∀ fs : FS, fsLookup fs p = none → fsInsert fs p node = fs := by
  intro fs
  induction fs with
  | nil => intro _; rfl
  | cons e rest ih =>
    intro h
    obtain ⟨k, v⟩ := e
    simp only [fsLookup, List.lookup] at h
    cases hbe : p == k with
    | true => rw [hbe] at h; simp at h
    | false =>
      rw [hbe] at h
      have hk : k ≠ p := fun he => by simp [he] at hbe
      simp only [fsInsert, List.map, if_neg hk]
      have hrest := ih h
      simp only [fsInsert] at hrest
      rw [hrest]

/-- C6 (amended): for every path inside the working-directory tree at which
no filesystem entry exists (and whose parent directory exists, so creation
succeeds), `edit_file` first creates an empty file there, then performs the
literal replacement of every occurrence of the old substring in the (empty)
content and rewrites the file with the result; a path naming an existing
directory instead yields a not-a-file error and no creation. -/
theorem c6_edit_creates_then_replaces :
    ∀ (cwd : String) (fs : FS) (file_path old_str new_str : String),
    pyStartswith (abspath cwd file_path) cwd = true →
    fsLookup fs (abspath cwd file_path) = none →
    EditFileTool.edit_file cwd fs file_path old_str new_str =
      ((abspath cwd file_path,
        Node.file (FileData.text (pyReplace "" old_str new_str))) :: fs,
       "File '" ++ abspath cwd file_path ++ "' edited successfully.",
       [Effect.stat (abspath cwd file_path), Effect.writeFile (abspath cwd file_path),
        Effect.readFile (abspath cwd file_path),
        Effect.writeFile (abspath cwd file_path)]) := by
  intro cwd fs file_path old_str new_str h1 h2
  have hexists : pathExists fs (abspath cwd file_path) = false := by
    simp [pathExists, h2]
  have hmap := fsInsert_lookup_none (abspath cwd file_path)
    (Node.file (FileData.text (pyReplace "" old_str new_str))) fs h2
  simp only [fsInsert] at hmap
  simp [EditFileTool.edit_file, h1, hexists, fsLookup, List.lookup, fsInsert, hmap]

/-- C6 witness: the amended theorem applied to a fresh relative path in an
empty filesystem. -/
theorem c6_edit_creates_then_replaces_witness :
    pyStartswith (abspath "/home/user" "new.txt") "/home/user" = true ∧
    fsLookup ([] : FS) (abspath "/home/user" "new.txt") = none ∧
    EditFileTool.edit_file "/home/user" [] "new.txt" "a" "b" =
      ([(abspath "/home/user" "new.txt",
         Node.file (FileData.text (pyReplace "" "a" "b")))],
       "File '" ++ abspath "/home/user" "new.txt" ++ "' edited successfully.",
       [Effect.stat (abspath "/home/user" "new.txt"),
        Effect.writeFile (abspath "/home/user" "new.txt"),
        Effect.readFile (abspath "/home/user" "new.txt"),
        Effect.writeFile (abspath "/home/user" "new.txt")]) :=
  ⟨by decide, by decide,
   c6_edit_creates_then_replaces "/home/user" [] "new.txt" "a" "b"
     (by decide) (by decide)⟩

/-- C7: confirmed.  `read_file` returns exactly what the claim enumerates:
a not-found error string when nothing exists at the path, a not-a-file
error string when the path names a directory, the decoded text when the
file decodes as UTF-8, and a binary-file notice stating the byte size when
it does not. -/
theorem c7_read_file_matches_spec :
    ∀ (fs : FS) (file_path : String),
    FileReaderTool.read_file fs file_path = readFileSpec fs file_path := by
  intro fs file_path
  unfold FileReaderTool.read_file readFileSpec pathExists isFile readData
  cases h : fsLookup fs file_path with
  | none => simp [h]
  | some node =>
    cases node with
    | dir => simp [h]
    | file d => cases d <;> simp [h]

/-- C8: confirmed.  Activating an already-active (registered) tool leaves
the active set unchanged; deactivating a tool that is not active — in
particular any unknown name — and activating an unregistered name each
print an error and change nothing. -/
theorem c8_activation_idempotent :
    ∀ (st : ChatState) (tool_name : String),
    (tool_name ∈ toolNames → tool_name ∈ st.active_tools →
      (stepActivate st tool_name).1.active_tools = st.active_tools) ∧
    (tool_name ∉ st.active_tools →
      stepDeactivate st tool_name = (st, ["Tool not active: " ++ tool_name], none)) ∧
    (tool_name ∉ toolNames →
      stepActivate st tool_name = (st, ["Unknown tool: " ++ tool_name], none)) := by
  intro st tool_name
  refine ⟨fun h1 h2 => ?_, fun h => ?_, fun h => ?_⟩
  · unfold stepActivate
    rw [if_pos h1]
    have hins : insert tool_name st.active_tools = st.active_tools :=
      Finset.insert_eq_self.mpr h2
    rw [hins]
    split <;> rfl
  · unfold stepDeactivate
    rw [if_neg h]
  · unfold stepActivate
    rw [if_neg h]

/-- A session state with one active tool, for closed theorems. -/
def st1 : ChatState :=
  { messages := [], active_tools := {"read_file_tool"}, tools := [] }

/-- C8 witness: all three clauses of the theorem at concrete inputs. -/
theorem c8_activation_idempotent_witness :
    "read_file_tool" ∈ toolNames ∧ "read_file_tool" ∈ st1.active_tools ∧
    (stepActivate st1 "read_file_tool").1.active_tools = st1.active_tools ∧
    "edit_file_tool" ∉ st1.active_tools ∧
    stepDeactivate st1 "edit_file_tool" =
      (st1, ["Tool not active: edit_file_tool"], none) ∧
    "foo_tool" ∉ toolNames ∧
    stepActivate st1 "foo_tool" = (st1, ["Unknown tool: foo_tool"], none) := by
  refine ⟨by decide, by decide, ?_, by decide, ?_, by decide, ?_⟩
  · exact (c8_activation_idempotent st1 "read_file_tool").1 (by decide) (by decide)
  · exact (c8_activation_idempotent st1 "edit_file_tool").2.1 (by decide)
  · exact (c8_activation_idempotent st1 "foo_tool").2.2 (by decide)

lemma mem_toolNames_lookup : ∀ n ∈ toolNames, (List.lookup n toolMap).isSome := by
  decide

lemma setupToolsList_ok : ∀ (l : List String), (∀ n ∈ l, n ∈ toolNames) →
    ∃ ts, setupToolsList l = Except.ok ts := by
  intro l
  induction l with
  | nil => intro _; exact ⟨[], rfl⟩
  | cons n rest ih =>
    intro h
    have hn : n ∈ toolNames := h n (List.mem_cons_self n rest)
    obtain ⟨s, hsome⟩ := Option.isSome_iff_exists.mp (mem_toolNames_lookup n hn)
    obtain ⟨ts, hts⟩ := ih (fun m hm => h m (List.mem_cons_of_mem n hm))
    exact ⟨s :: ts, by simp [setupToolsList, hsome, hts]⟩

lemma selectToolsGo_subset : ∀ (l : List Nat) (active : Finset String),
    active ⊆ toolNamesFinset → selectToolsGo active l ⊆ toolNamesFinset := by
  intro l
  induction l with
  | nil => intro active h; simpa [selectToolsGo] using h
  | cons idx rest ih =>
    intro active h
    unfold selectToolsGo
    split
    · apply ih
      exact Finset.insert_subset_iff.mpr ⟨by decide, h⟩
    · split
      · apply ih
        refine Finset.insert_subset_iff.mpr ⟨?_, h⟩
        rename_i hne hlt
        rw [List.getElem?_eq_getElem hlt, Option.getD_some]
        exact List.mem_toFinset.mpr (List.getElem_mem hlt)
      · exact Finset.Subset.refl _

/-- C9: confirmed.  Every operation that produces or mutates the active
tool set — the startup CLI selection, activation and deactivation — keeps
it a subset of the five registered names in the tool map, and deriving the
schema list for a model request from any such subset never fails a
lookup. -/
theorem c9_active_set_subset_invariant :
    ∀ (st : ChatState) (tool_name selection : String) (active : Finset String),
    (active ⊆ toolNamesFinset →
      TerminalChat.select_tools_cli selection active ⊆ toolNamesFinset) ∧
    (st.active_tools ⊆ toolNamesFinset →
      (stepActivate st tool_name).1.active_tools ⊆ toolNamesFinset) ∧
    (st.active_tools ⊆ toolNamesFinset →
      (stepDeactivate st tool_name).1.active_tools ⊆ toolNamesFinset) ∧
    (active ⊆ toolNamesFinset → ∃ ts, setup_tools active = Except.ok ts) := by
  intro st tool_name selection active
  refine ⟨fun h => ?_, fun h => ?_, fun h => ?_, fun h => ?_⟩
  · exact selectToolsGo_subset (parseSelection selection) active h
  · unfold stepActivate
    split
    · rename_i hmem
      split <;> exact Finset.insert_subset_iff.mpr ⟨List.mem_toFinset.mpr hmem, h⟩
    · exact h
  · unfold stepDeactivate
    split
    · split <;> exact Finset.Subset.trans (Finset.erase_subset _ _) h
    · exact h
  · apply setupToolsList_ok
    intro n hn
    exact List.mem_toFinset.mp (h ((Finset.mem_sort _).mp hn))

/-- The initial session state. -/
def st0 : ChatState := { messages := [], active_tools := ∅, tools := [] }

/-- C9 witness: all four clauses of the theorem at concrete inputs. -/
theorem c9_active_set_subset_invariant_witness :
    ((∅ : Finset String) ⊆ toolNamesFinset) ∧
    TerminalChat.select_tools_cli "1,99" ∅ ⊆ toolNamesFinset ∧
    (stepActivate st0 "read_file_tool").1.active_tools ⊆ toolNamesFinset ∧
    (stepDeactivate st0 "read_file_tool").1.active_tools ⊆ toolNamesFinset ∧
    (∃ ts, setup_tools (∅ : Finset String) = Except.ok ts) := by
  have h := c9_active_set_subset_invariant st0 "read_file_tool" "1,99" ∅
  exact ⟨by decide, h.1 (by decide), h.2.1 (by decide), h.2.2.1 (by decide),
    h.2.2.2 (by decide)⟩

lemma stepActivate_messages (st : ChatState) (n : String) :
    (stepActivate st n).1.messages = st.messages := by
  unfold stepActivate
  split
  · split <;> rfl
  · rfl

lemma stepDeactivate_messages (st : ChatState) (n : String) :
    (stepDeactivate st n).1.messages = st.messages := by
  unfold stepDeactivate
  split
  · split <;> rfl
  · rfl

lemma parseUserLine_plain :
    ∀ (line s : String), parseUserLine line = UserCmd.plain s →
    s = line ∧ pyStartswith line "/activate " = false ∧
      pyStartswith line "/deactivate " = false := by
  intro line s h
  unfold parseUserLine at h
  split at h
  · simp at h
  · split at h
    · simp at h
    · split at h
      · simp at h
      · rename_i h1 h2 h3
        cases h
        exact ⟨rfl, by simpa using h2, by simpa using h3⟩

/-- C10: confirmed.  Input handling never touches the transcript — the
state it returns carries exactly the messages it started from — and a line
it does return as a chat message is never an activation or deactivation
command, so no such command can be appended to the transcript sent to the
model. -/
theorem c10_input_handling_frame :
    ∀ (lines : List String) (st : ChatState),
    (getUserInput st lines).1.messages = st.messages ∧
    (∀ s, (getUserInput st lines).2 = GotInput.message s →
      pyStartswith s "/activate " = false ∧
        pyStartswith s "/deactivate " = false) := by
  intro lines
  induction lines with
  | nil =>
    intro st
    refine ⟨rfl, fun s h => ?_⟩
    simp [getUserInput] at h
  | cons line rest ih =>
    intro st
    cases hp : parseUserLine line with
    | exitCmd =>
      refine ⟨by simp [getUserInput, hp], fun s h => ?_⟩
      simp [getUserInput, hp] at h
    | activate n =>
      cases he : (stepActivate st n).2.2 with
      | some e =>
        refine ⟨?_, fun s h => ?_⟩
        · simp [getUserInput, hp, he, stepActivate_messages]
        · simp [getUserInput, hp, he] at h
      | none =>
        have hrec := ih (stepActivate st n).1
        refine ⟨?_, fun s h => ?_⟩
        · have hstep : (getUserInput st (line :: rest)).1 =
              (getUserInput (stepActivate st n).1 rest).1 := by
            simp [getUserInput, hp, he]
          rw [hstep, hrec.1, stepActivate_messages]
        · apply hrec.2 s
          rw [← h]
          simp [getUserInput, hp, he]
    | deactivate n =>
      cases he : (stepDeactivate st n).2.2 with
      | some e =>
        refine ⟨?_, fun s h => ?_⟩
        · simp [getUserInput, hp, he, stepDeactivate_messages]
        · simp [getUserInput, hp, he] at h
      | none =>
        have hrec := ih (stepDeactivate st n).1
        refine ⟨?_, fun s h => ?_⟩
        · have hstep : (getUserInput st (line :: rest)).1 =
              (getUserInput (stepDeactivate st n).1 rest).1 := by
            simp [getUserInput, hp, he]
          rw [hstep, hrec.1, stepDeactivate_messages]
        · apply hrec.2 s
          rw [← h]
          simp [getUserInput, hp, he]
    | plain s0 =>
      refine ⟨by simp [getUserInput, hp], fun s h => ?_⟩
      have hs : s0 = s := by simpa [getUserInput, hp] using h
      obtain ⟨hsl, ha, hd⟩ := parseUserLine_plain line s0 hp
      subst hs
      exact ⟨by rw [hsl]; exact ha, by rw [hsl]; exact hd⟩

/-- C10 witness: the theorem applied to a concrete plain chat line. -/
theorem c10_input_handling_frame_witness :
    (getUserInput st0 ["hello agent"]).1.messages = st0.messages ∧
    (getUserInput st0 ["hello agent"]).2 = GotInput.message "hello agent" ∧
    pyStartswith "hello agent" "/activate " = false ∧
    pyStartswith "hello agent" "/deactivate " = false := by
  have h := c10_input_handling_frame ["hello agent"] st0
  have h2 := h.2 "hello agent" (by decide)
  exact ⟨h.1, by decide, h2.1, h2.2⟩
